import Mathlib

/-!
Verification of the clock synchronization bridge of the `@sqlrooms/cesium`
package: the timestamp normalizer `toIso8601` (`src/packages/cesium/src/utils.ts`),
the throttled tick listener and config application of `useClockSync`
(`src/packages/cesium/src/hooks/useClockSync.ts` /
`src/packages/cesium/src/hooks/useCesiumViewer.ts`), the timeline-zoom
reaction, and the teardown guard.  The TypeScript functions are shallowly
embedded as Lean functions; the external Cesium parser `JulianDate.fromIso8601`
is an abstract parameter `parse : String → Option JulianDate` (it throws on
malformed input, modelled as `none`), and stateful engine handles become
explicit record states.
-/

namespace SqlroomsCesium

/-- Replace the first occurrence of character `a` with `b`, mirroring
JavaScript `String.prototype.replace` with a single-character string pattern
(which replaces only the first match). -/
def replaceFirstChar : List Char → Char → Char → List Char
  | [], _, _ => []
  | c :: cs, a, b => if c = a then b :: cs else c :: replaceFirstChar cs a b

/-- JavaScript `s.endsWith("Z")`: true iff the last character is `Z`
(false on the empty string). -/
def endsWithZ (cs : List Char) : Bool :=
  cs.getLast? = some 'Z'

/-- JavaScript `s.includes(c, i)` for a one-character needle: true iff `c`
occurs at index `i` or later. -/
def containsFrom (cs : List Char) (c : Char) (i : Nat) : Bool :=
  (cs.drop i).contains c

/-- Embedding of `toIso8601` from `src/packages/cesium/src/utils.ts`
(`src/unnamed/part_000`):

* if the input contains `'T'` it is returned unchanged;
* otherwise the first space is replaced by `'T'`, and `"Z"` is appended when
  the result does not end in `'Z'`, contains no `'+'` anywhere
  (`!normalized.includes('+')`), and contains no `'-'` at index 11 or later
  (`!normalized.includes('-', 11)`). -/
def toIso8601 (dateStr : String) : String :=
  if dateStr.data.contains 'T' then dateStr
  else
    let normalized : String := ⟨replaceFirstChar dateStr.data ' ' 'T'⟩
    if !endsWithZ normalized.data && !normalized.data.contains '+'
        && !containsFrom normalized.data '-' 11 then
      ⟨normalized.data ++ ['Z']⟩
    else normalized

/-- The normalization rule as the specification words it ("a trailing `Z` is
appended if and only if the resulting string does not end in `Z` and has no
explicit `+` or `-` timezone offset after position 11"): here BOTH signs are
only looked for from index 11 on.  Stated from the spec's words, to be
compared against the source's `toIso8601`. -/
def specToIso8601 (dateStr : String) : String :=
  if dateStr.data.contains 'T' then dateStr
  else
    let normalized : String := ⟨replaceFirstChar dateStr.data ' ' 'T'⟩
    if !endsWithZ normalized.data && !containsFrom normalized.data '+' 11
        && !containsFrom normalized.data '-' 11 then
      ⟨normalized.data ++ ['Z']⟩
    else normalized

/-- Opaque stand-in for Cesium's parsed `JulianDate` value: what
`JulianDate.fromIso8601` returns on success.  Only identity matters to the
bridge, so it wraps the parsed text. -/
structure JulianDate where
  iso : String
deriving DecidableEq

/-- The `clockRange` enumeration of the persisted `ClockConfig`
(`z.enum(['UNBOUNDED', 'CLAMPED', 'LOOP_STOP'])` in
`src/packages/cesium/src/cesium-config.ts`). -/
inductive ClockRangeEnum where
  | UNBOUNDED
  | CLAMPED
  | LOOP_STOP
deriving DecidableEq

/-- Cesium's native `ClockRange` constants (external library enumeration:
`ClockRange.UNBOUNDED = 0`, `ClockRange.CLAMPED = 1`,
`ClockRange.LOOP_STOP = 2` in Cesium's public API). -/
def cesiumClockRangeUNBOUNDED : Nat := 0

/-- Cesium's native `ClockRange.CLAMPED` constant. -/
def cesiumClockRangeCLAMPED : Nat := 1

/-- Cesium's native `ClockRange.LOOP_STOP` constant. -/
def cesiumClockRangeLOOP_STOP : Nat := 2

/-- Embedding of the `CLOCK_RANGE_MAP` lookup table of
`src/packages/cesium/src/hooks/useClockSync.ts` (lines 11-15): each config
enum string maps to the corresponding Cesium `ClockRange` constant. -/
def CLOCK_RANGE_MAP : ClockRangeEnum → Nat
  | .UNBOUNDED => cesiumClockRangeUNBOUNDED
  | .CLAMPED => cesiumClockRangeCLAMPED
  | .LOOP_STOP => cesiumClockRangeLOOP_STOP

/-- The persisted `ClockConfig` (`src/packages/cesium/src/cesium-config.ts`):
three optional textual timestamps plus multiplier, play flag and range
behavior.  The JavaScript number `multiplier` is only ever assigned verbatim
by the bridge, so it is modelled as `Int`. -/
structure ClockConfig where
  startTime : Option String
  stopTime : Option String
  currentTime : Option String
  multiplier : Int
  shouldAnimate : Bool
  clockRange : ClockRangeEnum
deriving DecidableEq

/-- The engine clock state written by the bridge (`viewer.clock`):
start/stop/current bounds in the engine's parsed time type, multiplier,
running flag and native range-behavior value. -/
structure EngineClock where
  startTime : JulianDate
  stopTime : JulianDate
  currentTime : JulianDate
  multiplier : Int
  shouldAnimate : Bool
  clockRange : Nat
  tickListeners : List Nat
deriving DecidableEq

/-- The engine handle ("viewer"): its clock, whether the optional timeline
widget is mounted (`viewer.timeline` truthiness), and the liveness flag
reported by `viewer.isDestroyed()`. -/
structure Viewer where
  clock : EngineClock
  hasTimeline : Bool
  destroyed : Bool
deriving DecidableEq

/-- One guarded field update of `applyClockConfigToViewer`
(`src/packages/cesium/src/hooks/useCesiumViewer.ts` lines 50-70):
`if (field) { try { clock.f = JulianDate.fromIso8601(toIso8601(field)); } catch { /* skip */ } }`.
An absent or empty field (JavaScript truthiness: `undefined` and `""` are both
falsy), or a parse failure (a thrown and caught exception, modelled by `parse`
returning `none`), keeps the clock's prior value. -/
def tryAssignTime (parse : String → Option JulianDate)
    (field : Option String) (old : JulianDate) : JulianDate :=
  match field with
  | none => old
  | some s =>
    if s = "" then old
    else
      match parse (toIso8601 s) with
      | some jd => jd
      | none => old

/-- Embedding of `applyClockConfigToViewer`
(`src/packages/cesium/src/hooks/useCesiumViewer.ts` lines 47-75): the three
timestamp fields are each parsed independently under their own try/catch,
then `multiplier`, `shouldAnimate` and the mapped `clockRange` are assigned
unconditionally.  `parse` stands for the external
`JulianDate.fromIso8601`. -/
def applyClockConfigToViewer (parse : String → Option JulianDate)
    (viewer : Viewer) (config : ClockConfig) : Viewer :=
  let c0 := viewer.clock
  let c1 := { c0 with startTime := tryAssignTime parse config.startTime c0.startTime }
  let c2 := { c1 with stopTime := tryAssignTime parse config.stopTime c1.stopTime }
  let c3 := { c2 with currentTime := tryAssignTime parse config.currentTime c2.currentTime }
  { viewer with
      clock := { c3 with
        multiplier := config.multiplier
        shouldAnimate := config.shouldAnimate
        clockRange := CLOCK_RANGE_MAP config.clockRange } }

/-- The mutable state of the tick listener: `lastSyncRef` (wall-clock
milliseconds of the last accepted update, initialized to 0 by `useRef(0)`)
and, for observation, the list of accepted store writes
(`setCurrentTime` call arguments) in order. -/
structure TickState where
  lastSync : Int
  writes : List String
deriving DecidableEq

/-- The fresh listener state at (re)attachment: `useRef(0)` and no store
writes yet. -/
def initialTickState : TickState :=
  { lastSync := 0, writes := [] }

/-- Embedding of the `onTick` handler of `useClockSync`
(`src/packages/cesium/src/hooks/useClockSync.ts` lines 54-62): if fewer than
500 ms of wall-clock time have elapsed since the last accepted update the
tick is discarded; otherwise the tick's wall-clock time is recorded and the
engine's current time (already serialized by Cesium's
`JulianDate.toIso8601`, the `cur` argument) is written to the store. -/
def onTick (st : TickState) (now : Int) (cur : String) : TickState :=
  if now - st.lastSync < 500 then st
  else { lastSync := now, writes := st.writes ++ [cur] }

/-- Run the tick handler over a sequence of (wall-clock time, serialized
current time) tick events in order. -/
def processTicks (st : TickState) : List (Int × String) → TickState
  | [] => st
  | (t, c) :: ts => processTicks (onTick st t c) ts

/-- Body of the timeline-zoom effect
(`src/packages/cesium/src/hooks/useCesiumViewer.ts` lines 145-154): guarded
on the viewer, both bounds being truthy and the timeline widget being
mounted; both bounds are then parsed inside one try/catch and
`viewer.timeline.zoomTo(startJd, stopJd)` is called once with the parsed
pair.  The returned list records the `zoomTo` invocations with their
arguments; a thrown parse error (caught) yields no call. -/
def runZoomEffect (parse : String → Option JulianDate) (viewer : Option Viewer)
    (startBound stopBound : Option String) : List (JulianDate × JulianDate) :=
  match viewer with
  | none => []
  | some v =>
    match startBound, stopBound with
    | some s, some e =>
      if s = "" then []
      else if e = "" then []
      else if !v.hasTimeline then []
      else
        match parse (toIso8601 s) with
        | none => []
        | some a =>
          match parse (toIso8601 e) with
          | none => []
          | some b => [(a, b)]
    | _, _ => []

/-- One store update as seen by the timeline-zoom reaction, whose React
dependency list is `[viewer, startTime, stopTime]`: with the viewer handle
held fixed, the effect re-runs iff `startTime` or `stopTime` changed by
value (React compares string dependencies with `Object.is`, which is value
equality on strings), and a re-run executes `runZoomEffect` on the new
bounds.  The result is the list of `zoomTo` calls the update triggers. -/
def zoomReactionStep (parse : String → Option JulianDate)
    (viewer : Option Viewer) (oldCfg newCfg : ClockConfig) :
    List (JulianDate × JulianDate) :=
  if newCfg.startTime = oldCfg.startTime ∧ newCfg.stopTime = oldCfg.stopTime then []
  else runZoomEffect parse viewer newCfg.startTime newCfg.stopTime

/-- Registration of the tick listener
(`v.clock.onTick.addEventListener(onTick)`). -/
def addTickListener (v : Viewer) (l : Nat) : Viewer :=
  { v with clock := { v.clock with tickListeners := v.clock.tickListeners ++ [l] } }

/-- Embedding of the tick-listener cleanup
(`src/packages/cesium/src/hooks/useClockSync.ts` lines 66-71):
`if (!v.isDestroyed()) { v.clock.onTick.removeEventListener(onTick); }`.
The second component logs each `removeEventListener` invocation with the
listener it was passed; a destroyed handle skips the call entirely. -/
def cleanupTickListener (v : Viewer) (l : Nat) : Viewer × List Nat :=
  if v.destroyed then (v, [])
  else
    ({ v with clock := { v.clock with tickListeners := v.clock.tickListeners.erase l } },
     [l])

/-! ### Helper lemmas about the tick listener -/

/-- A tick arriving at least 500 ms after the last accepted update is
accepted: a store write is appended and the wall-clock time is recorded. -/
theorem onTick_accept (st : TickState) (now : Int) (cur : String)
    (h : 500 ≤ now - st.lastSync) :
    onTick st now cur = { lastSync := now, writes := st.writes ++ [cur] } := by
  unfold onTick
  rw [if_neg (by omega)]

/-- A tick arriving strictly less than 500 ms after the last accepted update
is discarded: the listener state is unchanged. -/
theorem onTick_reject (st : TickState) (now : Int) (cur : String)
    (h : now - st.lastSync < 500) :
    onTick st now cur = st := by
  unfold onTick
  rw [if_pos h]

/-- If every remaining tick time lies strictly below `B` and fewer than
500 ms separate `B` from the last accepted update, no further tick is
accepted. -/
theorem processTicks_quiet :
    ∀ (ts : List (Int × String)) (st : TickState) (B : Int),
      (∀ p ∈ ts, p.1 < B) → B ≤ st.lastSync + 500 → processTicks st ts = st
  | [], _, _, _, _ => rfl
  | (t, c) :: ts, st, B, hts, hB => by
    have ht : t < B := by simpa using hts (t, c) (List.mem_cons_self _ _)
    show processTicks (onTick st t c) ts = st
    rw [onTick_reject st t c (by omega)]
    exact processTicks_quiet ts st B (fun p hp => hts p (List.mem_cons_of_mem _ hp)) hB

/-- If every remaining tick time lies strictly below `B` and at most
1000 ms separate `B` from the last accepted update, at most one further
tick is accepted. -/
theorem processTicks_writes_le_one :
    ∀ (ts : List (Int × String)) (st : TickState) (B : Int),
      (∀ p ∈ ts, p.1 < B) → B ≤ st.lastSync + 1000 →
      (processTicks st ts).writes.length ≤ st.writes.length + 1
  | [], st, _, _, _ => by simp [processTicks]
  | (t, c) :: ts, st, B, hts, hB => by
    have ht : t < B := by simpa using hts (t, c) (List.mem_cons_self _ _)
    have hts' : ∀ p ∈ ts, p.1 < B := fun p hp => hts p (List.mem_cons_of_mem _ hp)
    show (processTicks (onTick st t c) ts).writes.length ≤ st.writes.length + 1
    by_cases hacc : t - st.lastSync < 500
    · rw [onTick_reject st t c hacc]
      exact processTicks_writes_le_one ts st B hts' hB
    · rw [onTick_accept st t c (by omega)]
      rw [processTicks_quiet ts _ B hts' (show B ≤ t + 500 by omega)]
      simp

/-- Over any batch of ticks whose times all lie within a window
`[a, a + 1000)`, at most two ticks are accepted. -/
theorem processTicks_writes_le_two :
    ∀ (ts : List (Int × String)) (st : TickState) (a : Int),
      (∀ p ∈ ts, a ≤ p.1 ∧ p.1 < a + 1000) →
      (processTicks st ts).writes.length ≤ st.writes.length + 2
  | [], st, _, _ => by simp [processTicks]
  | (t, c) :: ts, st, a, hts => by
    have ht : a ≤ t ∧ t < a + 1000 := by simpa using hts (t, c) (List.mem_cons_self _ _)
    have hts' : ∀ p ∈ ts, a ≤ p.1 ∧ p.1 < a + 1000 :=
      fun p hp => hts p (List.mem_cons_of_mem _ hp)
    show (processTicks (onTick st t c) ts).writes.length ≤ st.writes.length + 2
    by_cases hacc : t - st.lastSync < 500
    · rw [onTick_reject st t c hacc]
      exact processTicks_writes_le_two ts st a hts'
    · rw [onTick_accept st t c (by omega)]
      have hone := processTicks_writes_le_one ts
        { lastSync := t, writes := st.writes ++ [c] } (a + 1000)
        (fun p hp => (hts' p hp).2) (show a + 1000 ≤ t + 1000 by omega)
      simp at hone
      simpa using hone

/-! ### Claim theorems -/

/-- C2 (counterexample): the claim's normalization rule says a trailing `Z`
is appended iff the result does not end in `Z` and has no `+` or `-` after
position 11.  On `"2024+01-01 00:00"` the `+` sits at index 4, before
position 11, so the claim's rule appends `Z`; the source code checks `+`
anywhere in the string and does not append, so the claim as stated is false
at this input. -/
theorem toIso8601_plus_position_counterexample :
    toIso8601 "2024+01-01 00:00" = "2024+01-01T00:00" ∧
    specToIso8601 "2024+01-01 00:00" = "2024+01-01T00:00Z" ∧
    toIso8601 "2024+01-01 00:00" ≠ specToIso8601 "2024+01-01 00:00" := by
  refine ⟨by decide, by decide, by decide⟩

/-- C2 (amended): `toIso8601` returns any input containing `T` unchanged; on
any other input it replaces the first space with `T` and appends a trailing
`Z` iff the result does not end in `Z`, contains no `+` anywhere, and
contains no `-` at index 11 or later; the three concrete examples of the
claim hold. -/
theorem toIso8601_normalization_contract :
    (∀ s : String, s.data.contains 'T' = true → toIso8601 s = s) ∧
    (∀ s : String, s.data.contains 'T' = false →
      (toIso8601 s).data =
        (if endsWithZ (replaceFirstChar s.data ' ' 'T') = false
            ∧ (replaceFirstChar s.data ' ' 'T').contains '+' = false
            ∧ containsFrom (replaceFirstChar s.data ' ' 'T') '-' 11 = false
         then replaceFirstChar s.data ' ' 'T' ++ ['Z']
         else replaceFirstChar s.data ' ' 'T')) ∧
    toIso8601 "1967-01-15 08:23:00" = "1967-01-15T08:23:00Z" ∧
    toIso8601 "2024-01-01T00:00:00Z" = "2024-01-01T00:00:00Z" ∧
    toIso8601 "2024-01-01T00:00:00+02:00" = "2024-01-01T00:00:00+02:00" := by
  refine ⟨?_, ?_, by decide, by decide, by decide⟩
  · intro s h
    unfold toIso8601
    rw [if_pos h]
  · intro s h
    unfold toIso8601
    rw [if_neg (by simpa using h)]
    cases hE : endsWithZ (replaceFirstChar s.data ' ' 'T') <;>
      cases hP : (replaceFirstChar s.data ' ' 'T').contains '+' <;>
        cases hM : containsFrom (replaceFirstChar s.data ' ' 'T') '-' 11 <;>
          · simp at hP
            simp [hE, hP, hM]

/-- Witness for C2's amended theorem: both universally quantified parts
applied at concrete inputs. -/
theorem toIso8601_normalization_contract_witness :
    toIso8601 "abcT" = "abcT" ∧
    (toIso8601 "1967-01-15 08:23:00").data = "1967-01-15T08:23:00Z".data :=
  ⟨toIso8601_normalization_contract.1 "abcT" (by decide),
   (toIso8601_normalization_contract.2.1 "1967-01-15 08:23:00" (by decide)).trans
     (by decide)⟩

/-- C6: on any input that already contains `T` (in particular one that also
ends in `Z` or carries a `+`/`-` offset at index 11 or later) `toIso8601` is
the identity, hence idempotent: `toIso8601 (toIso8601 x) = toIso8601 x = x`. -/
theorem toIso8601_idempotent_on_iso_inputs (s : String)
    (hT : s.data.contains 'T' = true)
    (hz : endsWithZ s.data = true ∨ containsFrom s.data '+' 11 = true ∨
      containsFrom s.data '-' 11 = true) :
    toIso8601 (toIso8601 s) = toIso8601 s ∧ toIso8601 s = s := by
  have h1 : toIso8601 s = s := by
    unfold toIso8601
    rw [if_pos hT]
  exact ⟨by rw [h1, h1], h1⟩

/-- Witness for C6 at `"2024-01-01T00:00:00Z"`. -/
theorem toIso8601_idempotent_witness :
    toIso8601 (toIso8601 "2024-01-01T00:00:00Z") = toIso8601 "2024-01-01T00:00:00Z" ∧
    toIso8601 "2024-01-01T00:00:00Z" = "2024-01-01T00:00:00Z" :=
  toIso8601_idempotent_on_iso_inputs "2024-01-01T00:00:00Z" (by decide)
    (Or.inl (by decide))

/-- C3: if a first tick is accepted (at least 500 ms after the last accepted
update), then a second tick at least 500 ms later is also accepted (both
ticks produce store writes), while a second tick strictly less than 500 ms
later is discarded: no store write occurs and the last-accepted timestamp
stays at the first tick's time. -/
theorem onTick_throttle_boundary (st : TickState) (t1 t2 : Int) (c1 c2 : String)
    (h1 : 500 ≤ t1 - st.lastSync) :
    onTick st t1 c1 = { lastSync := t1, writes := st.writes ++ [c1] } ∧
    (500 ≤ t2 - t1 →
      onTick (onTick st t1 c1) t2 c2
        = { lastSync := t2, writes := st.writes ++ [c1, c2] }) ∧
    (t2 - t1 < 500 → onTick (onTick st t1 c1) t2 c2 = onTick st t1 c1) := by
  have hfirst := onTick_accept st t1 c1 h1
  refine ⟨hfirst, ?_, ?_⟩
  · intro h2
    rw [hfirst, onTick_accept _ t2 c2 h2]
    simp
  · intro h2
    rw [hfirst, onTick_reject _ t2 c2 h2]

/-- Witness for C3: ticks at 600 and 1100 (500 ms apart) from a fresh
state are both accepted. -/
theorem onTick_throttle_boundary_witness :
    onTick initialTickState 600 "a" = { lastSync := 600, writes := ["a"] } ∧
    onTick (onTick initialTickState 600 "a") 1100 "b"
      = { lastSync := 1100, writes := ["a", "b"] } :=
  ⟨(onTick_throttle_boundary initialTickState 600 1100 "a" "b" (by decide)).1,
   (onTick_throttle_boundary initialTickState 600 1100 "a" "b" (by decide)).2.1
     (by decide)⟩

/-- C9: the last-accepted timestamp starts at 0 (`useRef(0)`), so from a
freshly mounted sync state any first tick at wall-clock time at least 500 ms
is accepted: it writes `currentTime` to the store and records its time as
last accepted. -/
theorem first_tick_always_accepted (st : TickState) (now : Int) (cur : String)
    (hfresh : st.lastSync = 0) (hnow : 500 ≤ now) :
    initialTickState.lastSync = 0 ∧
    onTick st now cur = { lastSync := now, writes := st.writes ++ [cur] } :=
  ⟨rfl, onTick_accept st now cur (by omega)⟩

/-- Witness for C9: the first tick at time 500 on the fresh state is
accepted. -/
theorem first_tick_always_accepted_witness :
    onTick initialTickState 500 "t0" = { lastSync := 500, writes := ["t0"] } :=
  (first_tick_always_accepted initialTickState 500 "t0" rfl (by decide)).2

/-- C7: over any batch of ticks fired within a 1-second window (all tick
times in `[a, a + 1000)`, as a gapless 60 Hz source produces), with the
last-accepted timestamp at or before the window start, the tick listener
accepts at most 2 store writes. -/
theorem processTicks_rate_bound (st : TickState) (a : Int)
    (ts : List (Int × String))
    (hls : st.lastSync ≤ a)
    (hts : ∀ p ∈ ts, a ≤ p.1 ∧ p.1 < a + 1000) :
    (processTicks st ts).writes.length ≤ st.writes.length + 2 :=
  processTicks_writes_le_two ts st a hts

/-- A gapless 60 Hz tick train over one second: 60 ticks, 16 ms apart,
covering `[0, 944]` ⊆ `[0, 1000)`. -/
def sixtyHzTicks : List (Int × String) :=
  (List.range 60).map (fun i => ((i : Int) * 16, "t"))

/-- Witness for C7: the 60-tick train from a fresh state yields at most 2
accepted writes. -/
theorem processTicks_rate_bound_witness :
    (processTicks initialTickState sixtyHzTicks).writes.length
      ≤ initialTickState.writes.length + 2 :=
  processTicks_rate_bound initialTickState 0 sixtyHzTicks (by decide) (by decide)

/-- C1: if `startTime` is a non-empty string whose normalized form fails to
parse, applying the config still assigns `multiplier`, `shouldAnimate` and
the mapped `clockRange`, leaves the engine's prior `startTime` unchanged,
and the `stopTime`/`currentTime` assignments proceed exactly as their own
independent parse-and-assign dictates (a failure in one field never blocks
the others); the apply is a total function, so nothing is thrown. -/
theorem applyClockConfig_partial_failure_isolation
    (parse : String → Option JulianDate) (v : Viewer) (cfg : ClockConfig)
    (s : String) (hs : cfg.startTime = some s) (hne : s ≠ "")
    (hfail : parse (toIso8601 s) = none) :
    (applyClockConfigToViewer parse v cfg).clock.startTime = v.clock.startTime ∧
    (applyClockConfigToViewer parse v cfg).clock.multiplier = cfg.multiplier ∧
    (applyClockConfigToViewer parse v cfg).clock.shouldAnimate = cfg.shouldAnimate ∧
    (applyClockConfigToViewer parse v cfg).clock.clockRange
      = CLOCK_RANGE_MAP cfg.clockRange ∧
    (applyClockConfigToViewer parse v cfg).clock.stopTime
      = tryAssignTime parse cfg.stopTime v.clock.stopTime ∧
    (applyClockConfigToViewer parse v cfg).clock.currentTime
      = tryAssignTime parse cfg.currentTime v.clock.currentTime := by
  unfold applyClockConfigToViewer
  refine ⟨?_, rfl, rfl, rfl, rfl, rfl⟩
  simp [tryAssignTime, hs, hne, hfail]

/-- A parse stand-in that fails on every input, as `JulianDate.fromIso8601`
does on malformed text. -/
def parseFailAll : String → Option JulianDate := fun _ => none

/-- A concrete live engine handle for witnesses. -/
def witViewer : Viewer :=
  { clock :=
      { startTime := ⟨"s0"⟩, stopTime := ⟨"e0"⟩, currentTime := ⟨"c0"⟩,
        multiplier := 1, shouldAnimate := false, clockRange := 2,
        tickListeners := [] },
    hasTimeline := true, destroyed := false }

/-- A concrete config whose `startTime` is malformed but whose remaining
fields are valid. -/
def witConfig : ClockConfig :=
  { startTime := some "not a timestamp", stopTime := none, currentTime := none,
    multiplier := 7, shouldAnimate := true, clockRange := .CLAMPED }

/-- Witness for C1: applying `witConfig` under an always-failing parser
keeps the prior start bound and still applies the playback fields. -/
theorem applyClockConfig_partial_failure_isolation_witness :
    (applyClockConfigToViewer parseFailAll witViewer witConfig).clock.startTime
        = witViewer.clock.startTime ∧
    (applyClockConfigToViewer parseFailAll witViewer witConfig).clock.multiplier = 7 ∧
    (applyClockConfigToViewer parseFailAll witViewer witConfig).clock.shouldAnimate
        = true ∧
    (applyClockConfigToViewer parseFailAll witViewer witConfig).clock.clockRange
        = CLOCK_RANGE_MAP ClockRangeEnum.CLAMPED :=
  have h := applyClockConfig_partial_failure_isolation parseFailAll witViewer witConfig
    "not a timestamp" rfl (by decide) rfl
  ⟨h.1, h.2.1, h.2.2.1, h.2.2.2.1⟩

/-- C4: a store update changing only `currentTime` triggers no timeline-zoom
call; an update changing a bound, with the viewer and its timeline mounted,
both bounds present non-empty and both parsing, triggers exactly one
`zoomTo` call with the two parsed bounds; if either bound fails to parse no
call is made (the reaction is total: the thrown parse error is caught). -/
theorem zoomReaction_range_gating
    (parse : String → Option JulianDate) (viewer : Option Viewer)
    (oldCfg newCfg : ClockConfig) (v : Viewer) (s e : String) (a b : JulianDate) :
    (∀ c : Option String,
      zoomReactionStep parse viewer oldCfg { oldCfg with currentTime := c } = []) ∧
    (¬ (newCfg.startTime = oldCfg.startTime ∧ newCfg.stopTime = oldCfg.stopTime) →
      viewer = some v → v.hasTimeline = true →
      newCfg.startTime = some s → s ≠ "" →
      newCfg.stopTime = some e → e ≠ "" →
      parse (toIso8601 s) = some a → parse (toIso8601 e) = some b →
      zoomReactionStep parse viewer oldCfg newCfg = [(a, b)]) ∧
    (newCfg.startTime = some s → newCfg.stopTime = some e →
      parse (toIso8601 s) = none ∨ parse (toIso8601 e) = none →
      zoomReactionStep parse viewer oldCfg newCfg = []) := by
  refine ⟨?_, ?_, ?_⟩
  · intro c
    unfold zoomReactionStep
    rw [if_pos ⟨rfl, rfl⟩]
  · intro hch hv ht hst hsne het hene hpa hpb
    unfold zoomReactionStep
    rw [if_neg hch]
    subst hv
    unfold runZoomEffect
    rw [hst, het]
    simp [hsne, hene, ht, hpa, hpb]
  · intro hst het hfail
    unfold zoomReactionStep
    split
    · rfl
    · unfold runZoomEffect
      cases viewer with
      | none => rfl
      | some v' =>
        rw [hst, het]
        by_cases h1 : s = ""
        · simp [h1]
        · by_cases h2 : e = ""
          · simp [h1, h2]
          · rcases hfail with hf | hf
            · simp [h1, h2, hf]
            · cases hpa : parse (toIso8601 s) with
              | none => simp [h1, h2, hpa]
              | some a' => simp [h1, h2, hpa, hf]

/-- A parse stand-in that fails exactly on the text `"BAD"` and wraps any
other input. -/
def witParse : String → Option JulianDate :=
  fun x => if x = "BAD" then none else some ⟨x⟩

/-- A concrete config with no bounds set. -/
def witOldCfg : ClockConfig :=
  { startTime := none, stopTime := none, currentTime := none,
    multiplier := 1, shouldAnimate := false, clockRange := .LOOP_STOP }

/-- `witOldCfg` with both bounds newly set to valid ISO timestamps. -/
def witNewCfg : ClockConfig :=
  { witOldCfg with
      startTime := some "2020-01-02T03:04:05Z",
      stopTime := some "2020-06-07T08:09:10Z" }

/-- Witness for C4: a `currentTime`-only update zooms nothing; a bound
update zooms once to the parsed pair. -/
theorem zoomReaction_range_gating_witness :
    zoomReactionStep witParse (some witViewer) witOldCfg
        { witOldCfg with currentTime := some "2024-01-01T00:00:00Z" } = [] ∧
    zoomReactionStep witParse (some witViewer) witOldCfg witNewCfg
        = [(⟨"2020-01-02T03:04:05Z"⟩, ⟨"2020-06-07T08:09:10Z"⟩)] :=
  have h := zoomReaction_range_gating witParse (some witViewer) witOldCfg witNewCfg
    witViewer "2020-01-02T03:04:05Z" "2020-06-07T08:09:10Z"
    ⟨"2020-01-02T03:04:05Z"⟩ ⟨"2020-06-07T08:09:10Z"⟩
  ⟨h.1 (some "2024-01-01T00:00:00Z"),
   h.2.1 (by decide) rfl rfl rfl (by decide) rfl (by decide) (by decide) (by decide)⟩

/-- C5: when the engine handle reports itself destroyed, the cleanup path
skips the listener-removal call entirely (the handle is untouched and no
removal is invoked; the cleanup is a total function, so nothing is thrown);
when it is not destroyed, removal is invoked exactly once with the very
listener that was registered. -/
theorem cleanup_teardown_safety (v : Viewer) (l : Nat) :
    (v.destroyed = true → cleanupTickListener v l = (v, [])) ∧
    (v.destroyed = false →
      (cleanupTickListener (addTickListener v l) l).2 = [l]) := by
  constructor
  · intro h
    unfold cleanupTickListener
    rw [if_pos h]
  · intro h
    unfold cleanupTickListener
    rw [if_neg (by simp [addTickListener, h])]

/-- `witViewer` after asynchronous destruction. -/
def witDeadViewer : Viewer :=
  { witViewer with destroyed := true }

/-- Witness for C5: the destroyed handle yields no removal call; the live
handle yields exactly one removal call with the registered listener. -/
theorem cleanup_teardown_safety_witness :
    cleanupTickListener witDeadViewer 3 = (witDeadViewer, []) ∧
    (cleanupTickListener (addTickListener witViewer 3) 3).2 = [3] :=
  ⟨(cleanup_teardown_safety witDeadViewer 3).1 rfl,
   (cleanup_teardown_safety witViewer 3).2 rfl⟩

/-- C8: `CLOCK_RANGE_MAP` gives the three config enumeration values three
pairwise distinct engine-native values, and every store-to-engine apply
assigns exactly the mapped value for the config's `clockRange`. -/
theorem clockRangeMap_injective_and_applied :
    CLOCK_RANGE_MAP ClockRangeEnum.UNBOUNDED ≠ CLOCK_RANGE_MAP ClockRangeEnum.CLAMPED ∧
    CLOCK_RANGE_MAP ClockRangeEnum.UNBOUNDED ≠ CLOCK_RANGE_MAP ClockRangeEnum.LOOP_STOP ∧
    CLOCK_RANGE_MAP ClockRangeEnum.CLAMPED ≠ CLOCK_RANGE_MAP ClockRangeEnum.LOOP_STOP ∧
    ∀ (parse : String → Option JulianDate) (v : Viewer) (cfg : ClockConfig),
      (applyClockConfigToViewer parse v cfg).clock.clockRange
        = CLOCK_RANGE_MAP cfg.clockRange :=
  ⟨by decide, by decide, by decide, fun _ _ _ => rfl⟩

/-- C10: an empty-string `startTime`, `stopTime` or `currentTime` is treated
exactly as an absent field by the store-to-engine apply (same result as
`none`, prior engine value kept), and the timeline-zoom effect never fires
when either bound is the empty string. -/
theorem empty_string_fields_treated_absent
    (parse : String → Option JulianDate) (v : Viewer) (cfg : ClockConfig)
    (viewer : Option Viewer) (startBound stopBound : Option String) :
    applyClockConfigToViewer parse v { cfg with startTime := some "" }
      = applyClockConfigToViewer parse v { cfg with startTime := none } ∧
    applyClockConfigToViewer parse v { cfg with stopTime := some "" }
      = applyClockConfigToViewer parse v { cfg with stopTime := none } ∧
    applyClockConfigToViewer parse v { cfg with currentTime := some "" }
      = applyClockConfigToViewer parse v { cfg with currentTime := none } ∧
    (applyClockConfigToViewer parse v { cfg with startTime := some "" }).clock.startTime
      = v.clock.startTime ∧
    (applyClockConfigToViewer parse v { cfg with stopTime := some "" }).clock.stopTime
      = v.clock.stopTime ∧
    (applyClockConfigToViewer parse v
        { cfg with currentTime := some "" }).clock.currentTime
      = v.clock.currentTime ∧
    runZoomEffect parse viewer (some "") stopBound = [] ∧
    runZoomEffect parse viewer startBound (some "") = [] := by
  refine ⟨rfl, rfl, rfl, rfl, rfl, rfl, ?_, ?_⟩
  · cases viewer with
    | none => rfl
    | some v' =>
      cases stopBound with
      | none => rfl
      | some e => simp [runZoomEffect]
  · cases viewer with
    | none => rfl
    | some v' =>
      cases startBound with
      | none => rfl
      | some s => simp [runZoomEffect]

end SqlroomsCesium
